import Mathlib

/-!
# connect-swift, Libraries/ZlibLinux/include/zliblinux.h

A shallow embedding of the three inline wrappers of the header:

* `CNIOExtrasZlib_deflateInit2`         (lines 20-27)
* `CNIOExtrasZlib_inflateInit2`         (lines 29-31)
* `CNIOExtrasZlib_voidPtr_to_BytefPtr`  (lines 33-35)

The header includes zlib.h, which is not part of the repository. What the
wrappers use from it (the entry points deflateInit2 and inflateInit2, the
stream structure they act on, the success code) is a parameter of the
embedding: every theorem is stated for an arbitrary library.

C calls with side effects are embedded in state-passing style: a call takes
the memory the callee can reach and gives back the returned value together
with the memory it leaves.
-/

namespace ZlibLinux

/-! ## C values -/

/-- A value of the C type int. The header only passes such values on: it does
no arithmetic, comparison or conversion on them, so no wrap-around arises. -/
abbrev CInt : Type := Int

/-- The pointee types named in the header: void (the parameter of the cast
helper), Bytef (its result) and z_stream (z_streamp is a pointer to it). -/
inductive CType where
  | void
  | Bytef
  | z_stream
  deriving DecidableEq, Repr

/-- A C pointer value: the static pointee type is an index of the type, the
run-time content is the address alone. -/
structure Ptr (pointee : CType) where
  addr : Nat
  deriving DecidableEq, Repr

/-- The zlib.h typedef z_streamp: a pointer to a z_stream structure. -/
abbrev z_streamp : Type := Ptr CType.z_stream

/-- The null pointer of a pointee type: address zero. -/
def Ptr.null {t : CType} : Ptr t := ⟨0⟩

/-! ## The library behind the wrappers -/

/-- The part of zlib that the header calls, over a memory type `Mem` that
holds the caller-owned stream structures (and whatever else the library
reads or writes). Each entry point receives the pointer and integer arguments
and the memory, and returns the status code with the memory it leaves.
`Z_OK` is the status code the library uses for success. -/
structure ZlibLibrary (Mem : Type) where
  Z_OK : CInt
  deflateInit2 : z_streamp → CInt → CInt → CInt → CInt → CInt → Mem → CInt × Mem
  inflateInit2 : z_streamp → CInt → Mem → CInt × Mem

/-! ## The three wrappers -/

/-- Lines 20-27 of the header:
`return deflateInit2(strm, level, method, windowBits, memLevel, strategy);` -/
def CNIOExtrasZlib_deflateInit2 {Mem : Type} (lib : ZlibLibrary Mem)
    (strm : z_streamp) (level method windowBits memLevel strategy : CInt)
    (mem : Mem) : CInt × Mem :=
  lib.deflateInit2 strm level method windowBits memLevel strategy mem

/-- Lines 29-31 of the header: `return inflateInit2(strm, windowBits);` -/
def CNIOExtrasZlib_inflateInit2 {Mem : Type} (lib : ZlibLibrary Mem)
    (strm : z_streamp) (windowBits : CInt) (mem : Mem) : CInt × Mem :=
  lib.inflateInit2 strm windowBits mem

/-- Lines 33-35 of the header: `return (Bytef *)in;`. The cast keeps the
address and changes the pointee type from void to Bytef. It calls nothing
and touches no memory, so it is a pure function of its argument. -/
def CNIOExtrasZlib_voidPtr_to_BytefPtr (in_ : Ptr CType.void) : Ptr CType.Bytef :=
  ⟨in_.addr⟩

/-! ## Sequences of wrapper calls -/

/-- One call of one of the three wrappers, with its arguments. -/
inductive ShimCall where
  | deflateInit2 (strm : z_streamp) (level method windowBits memLevel strategy : CInt)
  | inflateInit2 (strm : z_streamp) (windowBits : CInt)
  | voidPtr_to_BytefPtr (p : Ptr CType.void)
  deriving DecidableEq, Repr

/-- What a wrapper call returns: a status code or a byte pointer. -/
inductive ShimResult where
  | status (code : CInt)
  | bytefPtr (p : Ptr CType.Bytef)
  deriving DecidableEq, Repr

/-- The state of a program that includes the header, as far as a wrapper
call can meet it: `mem` is the memory the library reads and writes (the
caller-owned stream structures), `rest` is every other object of the program.
A variable that a wrapper kept from one call to the next (a file-scope or
static local variable) would be part of `rest`. -/
structure ProgramState (Rest Mem : Type) where
  rest : Rest
  mem : Mem
  deriving DecidableEq, Repr

/-- Performs one wrapper call in a program state: the returned value and the
state after the call. The two init wrappers hand `mem` to the library and
store the memory the library leaves; the cast helper is evaluated on its
argument. No body in the header names an object of `rest`, so `rest` is
carried over as it is. -/
def perform {Rest Mem : Type} (lib : ZlibLibrary Mem) :
    ShimCall → ProgramState Rest Mem → ShimResult × ProgramState Rest Mem
  | ShimCall.deflateInit2 strm level method windowBits memLevel strategy, s =>
      let r := CNIOExtrasZlib_deflateInit2 lib strm level method windowBits memLevel strategy
        s.mem
      (ShimResult.status r.1, { rest := s.rest, mem := r.2 })
  | ShimCall.inflateInit2 strm windowBits, s =>
      let r := CNIOExtrasZlib_inflateInit2 lib strm windowBits s.mem
      (ShimResult.status r.1, { rest := s.rest, mem := r.2 })
  | ShimCall.voidPtr_to_BytefPtr p, s =>
      (ShimResult.bytefPtr (CNIOExtrasZlib_voidPtr_to_BytefPtr p), s)

/-- Performs a sequence of wrapper calls in order, from a starting program
state, and gives the state reached. -/
def runCalls {Rest Mem : Type} (lib : ZlibLibrary Mem) :
    List ShimCall → ProgramState Rest Mem → ProgramState Rest Mem
  | [], s => s
  | c :: others, s => runCalls lib others (perform lib c s).2

/-- The same call made on the library directly, with no wrapper and no
program state: a function of the arguments of the call and of the library
memory, and of nothing else. The cast is the C conversion of the address. -/
def directCall {Mem : Type} (lib : ZlibLibrary Mem) : ShimCall → Mem → ShimResult × Mem
  | ShimCall.deflateInit2 strm level method windowBits memLevel strategy, mem =>
      let r := lib.deflateInit2 strm level method windowBits memLevel strategy mem
      (ShimResult.status r.1, r.2)
  | ShimCall.inflateInit2 strm windowBits, mem =>
      let r := lib.inflateInit2 strm windowBits mem
      (ShimResult.status r.1, r.2)
  | ShimCall.voidPtr_to_BytefPtr p, mem => (ShimResult.bytefPtr ⟨p.addr⟩, mem)

/-! ## Two concrete libraries

The theorems hold for every `ZlibLibrary`. The two instances below are used
to evaluate them on concrete inputs. -/

/-- A call as a library entry point receives it: the name of the entry point
and the argument tuple. -/
inductive LibCall where
  | deflateInit2 (strm : z_streamp) (level method windowBits memLevel strategy : CInt)
  | inflateInit2 (strm : z_streamp) (windowBits : CInt)
  deriving DecidableEq, Repr

/-- A library whose memory is the log of the calls it received: each entry
point appends the tuple it was given, and answers 0. -/
def recordingLib : ZlibLibrary (List LibCall) where
  Z_OK := 0
  deflateInit2 := fun strm level method windowBits memLevel strategy log =>
    (0, log ++ [LibCall.deflateInit2 strm level method windowBits memLevel strategy])
  inflateInit2 := fun strm windowBits log =>
    (0, log ++ [LibCall.inflateInit2 strm windowBits])

/-- A library that accepts a window-bits value from 8 to 15 only: outside
that range it answers -2 and leaves its memory as it was, inside it logs the
call and answers 0. -/
def rangeCheckingLib : ZlibLibrary (List LibCall) where
  Z_OK := 0
  deflateInit2 := fun strm level method windowBits memLevel strategy log =>
    if 8 ≤ windowBits ∧ windowBits ≤ 15 then
      (0, log ++ [LibCall.deflateInit2 strm level method windowBits memLevel strategy])
    else (-2, log)
  inflateInit2 := fun strm windowBits log =>
    if 8 ≤ windowBits ∧ windowBits ≤ 15 then
      (0, log ++ [LibCall.inflateInit2 strm windowBits])
    else (-2, log)

/-! ## Theorems -/

/-- C1: for every library (its extended deflate entry point is an arbitrary
function), every stream pointer, every five integers and every memory, the
status code returned by `CNIOExtrasZlib_deflateInit2` is the status code the
library returns for the same tuple on the same memory. With the recording
library the entry point is seen to receive exactly that tuple, each argument
in its own position. -/
theorem deflateInit2_wrapper_returns_library_status {Mem : Type} (lib : ZlibLibrary Mem)
    (strm : z_streamp) (level method windowBits memLevel strategy : CInt) (mem : Mem) :
    (CNIOExtrasZlib_deflateInit2 lib strm level method windowBits memLevel strategy mem).1
        = (lib.deflateInit2 strm level method windowBits memLevel strategy mem).1
      ∧ (CNIOExtrasZlib_deflateInit2 recordingLib strm level method windowBits memLevel
            strategy []).2
        = [LibCall.deflateInit2 strm level method windowBits memLevel strategy] :=
  ⟨rfl, rfl⟩

/-- C2: for every library, every stream pointer, every window-bits value and
every memory, the status code returned by `CNIOExtrasZlib_inflateInit2` is the
status code the library returns for the same pair on the same memory. With
the recording library the entry point is seen to receive exactly that pair. -/
theorem inflateInit2_wrapper_returns_library_status {Mem : Type} (lib : ZlibLibrary Mem)
    (strm : z_streamp) (windowBits : CInt) (mem : Mem) :
    (CNIOExtrasZlib_inflateInit2 lib strm windowBits mem).1
        = (lib.inflateInit2 strm windowBits mem).1
      ∧ (CNIOExtrasZlib_inflateInit2 recordingLib strm windowBits []).2
        = [LibCall.inflateInit2 strm windowBits] :=
  ⟨rfl, rfl⟩

/-- C3: for every non-null pointer p, the pointer returned by
`CNIOExtrasZlib_voidPtr_to_BytefPtr` has the address of p, bit for bit, and
is non-null as well. -/
theorem voidPtr_to_BytefPtr_same_address (p : Ptr CType.void) (hp : p.addr ≠ 0) :
    (CNIOExtrasZlib_voidPtr_to_BytefPtr p).addr = p.addr
      ∧ (∀ i : Nat, ((CNIOExtrasZlib_voidPtr_to_BytefPtr p).addr).testBit i = (p.addr).testBit i)
      ∧ (CNIOExtrasZlib_voidPtr_to_BytefPtr p).addr ≠ 0 :=
  ⟨rfl, fun _ => rfl, hp⟩

/-- Instance of C3 at the address 4096. -/
theorem voidPtr_to_BytefPtr_same_address_witness :
    (⟨4096⟩ : Ptr CType.void).addr ≠ 0
      ∧ (CNIOExtrasZlib_voidPtr_to_BytefPtr ⟨4096⟩).addr = 4096 :=
  ⟨by decide, (voidPtr_to_BytefPtr_same_address ⟨4096⟩ (by decide)).1⟩

/-- C4: whenever the library turns a call down (its status code for the
arguments is not `Z_OK`, as for a window-bits value outside the range it
accepts), the wrapper returns that same failure code, and the memory after the
wrapper call is the memory the library call alone leaves. This holds for
`CNIOExtrasZlib_deflateInit2` and for `CNIOExtrasZlib_inflateInit2`, for every
library and all arguments. -/
theorem init_wrappers_propagate_rejection {Mem : Type} (lib : ZlibLibrary Mem)
    (strm : z_streamp) (level method windowBits memLevel strategy : CInt) (mem : Mem) :
    ((lib.deflateInit2 strm level method windowBits memLevel strategy mem).1 ≠ lib.Z_OK →
        (CNIOExtrasZlib_deflateInit2 lib strm level method windowBits memLevel strategy mem).1
            = (lib.deflateInit2 strm level method windowBits memLevel strategy mem).1
          ∧ (CNIOExtrasZlib_deflateInit2 lib strm level method windowBits memLevel strategy
                mem).1 ≠ lib.Z_OK
          ∧ (CNIOExtrasZlib_deflateInit2 lib strm level method windowBits memLevel strategy
                mem).2
            = (lib.deflateInit2 strm level method windowBits memLevel strategy mem).2)
      ∧ ((lib.inflateInit2 strm windowBits mem).1 ≠ lib.Z_OK →
        (CNIOExtrasZlib_inflateInit2 lib strm windowBits mem).1
            = (lib.inflateInit2 strm windowBits mem).1
          ∧ (CNIOExtrasZlib_inflateInit2 lib strm windowBits mem).1 ≠ lib.Z_OK
          ∧ (CNIOExtrasZlib_inflateInit2 lib strm windowBits mem).2
            = (lib.inflateInit2 strm windowBits mem).2) :=
  ⟨fun h => ⟨rfl, h, rfl⟩, fun h => ⟨rfl, h, rfl⟩⟩

/-- Instance of C4 with the range-checking library and the window-bits value
99: both wrappers return -2 and leave the memory as it was. -/
theorem init_wrappers_propagate_rejection_witness :
    ((rangeCheckingLib.deflateInit2 ⟨4096⟩ 6 8 99 8 0 []).1 ≠ rangeCheckingLib.Z_OK
        ∧ (rangeCheckingLib.inflateInit2 ⟨4096⟩ 99 []).1 ≠ rangeCheckingLib.Z_OK)
      ∧ CNIOExtrasZlib_deflateInit2 rangeCheckingLib ⟨4096⟩ 6 8 99 8 0 [] = (-2, [])
      ∧ CNIOExtrasZlib_inflateInit2 rangeCheckingLib ⟨4096⟩ 99 [] = (-2, []) :=
  have hd : (rangeCheckingLib.deflateInit2 ⟨4096⟩ 6 8 99 8 0 []).1 ≠ rangeCheckingLib.Z_OK := by
    decide
  have hi : (rangeCheckingLib.inflateInit2 ⟨4096⟩ 99 []).1 ≠ rangeCheckingLib.Z_OK := by
    decide
  have d := (init_wrappers_propagate_rejection rangeCheckingLib ⟨4096⟩ 6 8 99 8 0 []).1 hd
  have i := (init_wrappers_propagate_rejection rangeCheckingLib ⟨4096⟩ 6 8 99 8 0 []).2 hi
  ⟨⟨hd, hi⟩, Prod.ext d.1 d.2.2, Prod.ext i.1 i.2.2⟩

/-- C5: for every library, every starting memory and all arguments, the
memory left by `CNIOExtrasZlib_deflateInit2` (by `CNIOExtrasZlib_inflateInit2`)
is the memory left by the library entry point called directly with the same
arguments on the same memory, and so is every view of a stream structure read
from it. -/
theorem init_wrappers_leave_library_state {Mem : Type} (lib : ZlibLibrary Mem)
    (strm : z_streamp) (level method windowBits memLevel strategy : CInt) (mem : Mem) :
    (CNIOExtrasZlib_deflateInit2 lib strm level method windowBits memLevel strategy mem).2
        = (lib.deflateInit2 strm level method windowBits memLevel strategy mem).2
      ∧ (CNIOExtrasZlib_inflateInit2 lib strm windowBits mem).2
        = (lib.inflateInit2 strm windowBits mem).2
      ∧ (∀ (Stream : Type) (view : Mem → z_streamp → Stream) (s : z_streamp),
          view (CNIOExtrasZlib_deflateInit2 lib strm level method windowBits memLevel strategy
              mem).2 s
            = view (lib.deflateInit2 strm level method windowBits memLevel strategy mem).2 s
          ∧ view (CNIOExtrasZlib_inflateInit2 lib strm windowBits mem).2 s
            = view (lib.inflateInit2 strm windowBits mem).2 s) :=
  ⟨rfl, rfl, fun _ _ _ => ⟨rfl, rfl⟩⟩

/-- A wrapper call returns what the direct library call returns on the
library memory of the state, and leaves that memory; the rest of the state
plays no part. -/
theorem perform_eq_directCall {Rest Mem : Type} (lib : ZlibLibrary Mem) (c : ShimCall)
    (s : ProgramState Rest Mem) :
    perform lib c s
      = ((directCall lib c s.mem).1, { rest := s.rest, mem := (directCall lib c s.mem).2 }) := by
  cases c <;> rfl

/-- A sequence of wrapper calls leaves the rest of the program state as it
found it. -/
theorem runCalls_rest {Rest Mem : Type} (lib : ZlibLibrary Mem) (calls : List ShimCall)
    (s : ProgramState Rest Mem) : (runCalls lib calls s).rest = s.rest := by
  induction calls generalizing s with
  | nil => rfl
  | cons c others ih =>
    rw [runCalls, ih, perform_eq_directCall]

/-- C6: the wrappers keep no state and do not depend on call order. Take any
library and two runs: each run starts from its own program state and makes
its own sequence of wrapper calls (any of the three, any number of times).
If the two runs reach the same library memory, then a wrapper call with the
same arguments returns the same value and leaves the same library memory in
both, whatever the rest of the two program states is. That value and memory
are the ones of the direct library call on the memory reached. No wrapper
call changes the rest of the program state. The result of the cast helper is
the same in every state and with every library. -/
theorem wrappers_keep_no_state {Rest Mem : Type} (lib : ZlibLibrary Mem)
    (before₁ before₂ : List ShimCall) (s₁ s₂ : ProgramState Rest Mem) (c : ShimCall) :
    ((runCalls lib before₁ s₁).mem = (runCalls lib before₂ s₂).mem →
        (perform lib c (runCalls lib before₁ s₁)).1 = (perform lib c (runCalls lib before₂ s₂)).1
          ∧ (perform lib c (runCalls lib before₁ s₁)).2.mem
            = (perform lib c (runCalls lib before₂ s₂)).2.mem)
      ∧ ((perform lib c (runCalls lib before₁ s₁)).1
            = (directCall lib c (runCalls lib before₁ s₁).mem).1
          ∧ (perform lib c (runCalls lib before₁ s₁)).2.mem
            = (directCall lib c (runCalls lib before₁ s₁).mem).2)
      ∧ (perform lib c (runCalls lib before₁ s₁)).2.rest = s₁.rest
      ∧ (∀ (Rest₂ Mem₂ : Type) (lib₂ : ZlibLibrary Mem₂) (t : ProgramState Rest₂ Mem₂)
            (p : Ptr CType.void),
          (perform lib (ShimCall.voidPtr_to_BytefPtr p) (runCalls lib before₁ s₁)).1
            = (perform lib₂ (ShimCall.voidPtr_to_BytefPtr p) t).1) := by
  refine ⟨fun h => ?_, ?_, ?_, fun _ _ _ _ _ => rfl⟩
  · rw [perform_eq_directCall, perform_eq_directCall, h]
    exact ⟨rfl, rfl⟩
  · rw [perform_eq_directCall]
    exact ⟨rfl, rfl⟩
  · rw [perform_eq_directCall]
    exact runCalls_rest lib before₁ s₁

/-- Instance of C6 with the recording library. The two runs differ in the
rest of the program state (7 and 9), in the wrappers called and in their
number; both reach the same library memory, and the inflate wrapper then
returns 0 and leaves the same two-entry log in both. -/
theorem wrappers_keep_no_state_witness :
    (runCalls recordingLib
          [ShimCall.voidPtr_to_BytefPtr ⟨16⟩, ShimCall.deflateInit2 ⟨4096⟩ 6 8 31 8 0]
          (ProgramState.mk (7 : Nat) [])).mem
        = (runCalls recordingLib
          [ShimCall.deflateInit2 ⟨4096⟩ 6 8 31 8 0, ShimCall.voidPtr_to_BytefPtr ⟨32⟩,
            ShimCall.voidPtr_to_BytefPtr ⟨16⟩]
          (ProgramState.mk (9 : Nat) [])).mem
      ∧ (perform recordingLib (ShimCall.inflateInit2 ⟨4096⟩ 31)
          (runCalls recordingLib
            [ShimCall.voidPtr_to_BytefPtr ⟨16⟩, ShimCall.deflateInit2 ⟨4096⟩ 6 8 31 8 0]
            (ProgramState.mk (7 : Nat) []))).1
        = (perform recordingLib (ShimCall.inflateInit2 ⟨4096⟩ 31)
          (runCalls recordingLib
            [ShimCall.deflateInit2 ⟨4096⟩ 6 8 31 8 0, ShimCall.voidPtr_to_BytefPtr ⟨32⟩,
              ShimCall.voidPtr_to_BytefPtr ⟨16⟩]
            (ProgramState.mk (9 : Nat) []))).1
      ∧ perform recordingLib (ShimCall.inflateInit2 ⟨4096⟩ 31)
          (runCalls recordingLib
            [ShimCall.voidPtr_to_BytefPtr ⟨16⟩, ShimCall.deflateInit2 ⟨4096⟩ 6 8 31 8 0]
            (ProgramState.mk (7 : Nat) []))
        = (ShimResult.status 0,
            ProgramState.mk 7
              [LibCall.deflateInit2 ⟨4096⟩ 6 8 31 8 0, LibCall.inflateInit2 ⟨4096⟩ 31]) :=
  ⟨by decide,
    ((wrappers_keep_no_state recordingLib
      [ShimCall.voidPtr_to_BytefPtr ⟨16⟩, ShimCall.deflateInit2 ⟨4096⟩ 6 8 31 8 0]
      [ShimCall.deflateInit2 ⟨4096⟩ 6 8 31 8 0, ShimCall.voidPtr_to_BytefPtr ⟨32⟩,
        ShimCall.voidPtr_to_BytefPtr ⟨16⟩]
      (ProgramState.mk (7 : Nat) []) (ProgramState.mk (9 : Nat) [])
      (ShimCall.inflateInit2 ⟨4096⟩ 31)).1 (by decide)).1,
    by decide⟩

/-- C7: `CNIOExtrasZlib_voidPtr_to_BytefPtr` is defined on every pointer and
keeps the address of every pointer, the null pointer included (null goes to
null), and it is injective: equal results come from equal inputs only. -/
theorem voidPtr_to_BytefPtr_identity_injective :
    (∀ p : Ptr CType.void, (CNIOExtrasZlib_voidPtr_to_BytefPtr p).addr = p.addr)
      ∧ CNIOExtrasZlib_voidPtr_to_BytefPtr Ptr.null = Ptr.null
      ∧ Function.Injective CNIOExtrasZlib_voidPtr_to_BytefPtr :=
  ⟨fun _ => rfl, rfl, fun p q h => by
    cases p
    cases q
    simpa [CNIOExtrasZlib_voidPtr_to_BytefPtr] using h⟩

end ZlibLinux
